import Mathlib

/-!
Verification of the fairness drift-and-risk engine of the Fair repository.

The Python sources embedded here (shallow embedding over ℚ):
  - fairlens_backend/trend_analyzer.py   (get_recent_trend, check_pre_alert,
    calculate_drift_velocity)
  - fairlens_backend/fairness_trend.py   (predict_fairness_drift)
  - fairlens_backend/drift_monitor.py    (DriftMonitor)
  - biascheck_backend/metrics_engine.py  (the five fairness metrics and
    MetricsEngine.calculate_all_metrics)

Python floats are modelled as exact rationals; `round(x, n)` is modelled
faithfully as round-half-to-even at n decimal places.  Database reads
(`get_recent_checks`, the `fairness_trend` table) are modelled by passing the
fetched record list / table contents as an explicit argument.  Transcendental
functions (np.log, np.exp) are abstracted as function parameters, since no
claim depends on their values.
-/

namespace Fair

/-- Arithmetic mean of a list of rationals (`statistics.mean` / `np.mean`).
Callers in the sources only apply it to nonempty lists. -/
def mean (xs : List ℚ) : ℚ := xs.sum / xs.length

/-- Round half to even to the nearest integer (Python's built-in `round`
applied to a scalar). -/
def rne (x : ℚ) : ℤ :=
  let f := ⌊x⌋
  let r := x - f
  if r < 1/2 then f
  else if 1/2 < r then f + 1
  else if 2 ∣ f then f else f + 1

/-- Python `round(x, n)`: round half to even at `n` decimal places. -/
def roundTo (n : ℕ) (x : ℚ) : ℚ := (rne (x * (10 : ℚ) ^ n) : ℚ) / (10 : ℚ) ^ n

/-- Insert into a sorted list (helper for `sortQ`). -/
def insertSorted (x : ℚ) : List ℚ → List ℚ
  | [] => [x]
  | y :: ys => if x ≤ y then x :: y :: ys else y :: insertSorted x ys

/-- Insertion sort, ascending (stands for Python's `sorted`). -/
def sortQ (xs : List ℚ) : List ℚ := xs.foldr insertSorted []

/-- `statistics.median`: middle element of the sorted list, or the average of
the two middle elements for an even count. -/
def median (xs : List ℚ) : ℚ :=
  let s := sortQ xs
  let n := s.length
  if n % 2 = 1 then s.getD (n / 2) 0
  else (s.getD (n / 2 - 1) 0 + s.getD (n / 2) 0) / 2

/-- Python `min` over a nonempty list (0 sentinel on []). -/
def listMin : List ℚ → ℚ
  | [] => 0
  | x :: xs => xs.foldl min x

/-- Python `max` over a nonempty list (0 sentinel on []). -/
def listMax : List ℚ → ℚ
  | [] => 0
  | x :: xs => xs.foldl max x

/-! ## trend_analyzer.py -/

/-- One row returned by `db_manager.get_recent_checks` (most-recent-first);
only the fields the analyzer reads are modelled (`dir_value`,
`alert_status`). -/
structure CheckRecord where
  dir_value : ℚ
  alert_status : Bool
  deriving DecidableEq

/-- Result dictionary of `get_recent_trend` (the rounded `dir_values` echo and
the `message` string are omitted; no claim mentions them). -/
structure TrendSummary where
  average_dir : Option ℚ
  median_dir : Option ℚ
  min_dir : Option ℚ
  max_dir : Option ℚ
  trend_direction : String
  alert_count : ℕ
  data_points : ℕ
  deriving DecidableEq

/-- `[r['dir_value'] for r in reversed(records)]`: the fetched window's DIR
values back in chronological order (shared by `get_recent_trend` and
`calculate_drift_velocity`). -/
def dirValues (records : List CheckRecord) : List ℚ :=
  records.reverse.map (fun r => r.dir_value)

/-- The trend-direction block of `get_recent_trend` (trend_analyzer.py lines
73-86), extracted as a function of the chronological DIR values. -/
def trendDirection (dir_values : List ℚ) : String :=
  if dir_values.length ≥ 4 then
    let mid_point := dir_values.length / 2
    let first_half_avg := mean (dir_values.take mid_point)
    let second_half_avg := mean (dir_values.drop mid_point)
    let difference := second_half_avg - first_half_avg
    if difference < -(1/20) then "down"
    else if difference > 1/20 then "up"
    else "stable"
  else "stable"

/-- `trend_analyzer.get_recent_trend`, with the fetched window (most-recent-
first, as `get_recent_checks` returns it) passed explicitly. -/
def get_recent_trend (records : List CheckRecord) : TrendSummary :=
  if records.isEmpty then
    { average_dir := none, median_dir := none, min_dir := none, max_dir := none,
      trend_direction := "unknown", alert_count := 0, data_points := 0 }
  else
    let dir_values := dirValues records
    let alert_count := (records.filter (·.alert_status)).length
    { average_dir := some (roundTo 4 (mean dir_values)),
      median_dir := some (roundTo 4 (median dir_values)),
      min_dir := some (roundTo 4 (listMin dir_values)),
      max_dir := some (roundTo 4 (listMax dir_values)),
      trend_direction := trendDirection dir_values,
      alert_count := alert_count,
      data_points := dir_values.length }

/-- Result dictionary of `check_pre_alert` (message/recommendation strings
omitted). -/
structure PreAlert where
  pre_alert : Bool
  current_avg : Option ℚ
  trend : String
  severity : String
  deriving DecidableEq

/-- `trend_analyzer.check_pre_alert`, with the fetched window passed
explicitly. -/
def check_pre_alert (threshold : ℚ) (records : List CheckRecord) : PreAlert :=
  let trend_data := get_recent_trend records
  if trend_data.data_points = 0 then
    { pre_alert := false, current_avg := none, trend := "unknown", severity := "none" }
  else
    let avg_dir := trend_data.average_dir.getD 0
    let trend := trend_data.trend_direction
    if avg_dir < threshold then
      { pre_alert := true, current_avg := some avg_dir, trend := trend, severity := "high" }
    else if trend = "down" then
      if avg_dir < threshold + 1/10 then
        { pre_alert := true, current_avg := some avg_dir, trend := trend, severity := "medium" }
      else
        { pre_alert := true, current_avg := some avg_dir, trend := trend, severity := "low" }
    else
      { pre_alert := false, current_avg := some avg_dir, trend := trend, severity := "none" }

/-- Result dictionary of `calculate_drift_velocity` (message omitted). -/
structure DriftVelocity where
  velocity : Option ℚ
  estimated_checks_to_threshold : Option ℤ
  is_accelerating : Bool
  current_dir : Option ℚ
  deriving DecidableEq

/-- `trend_analyzer.calculate_drift_velocity`, with the fetched window passed
explicitly.  `int(...)` on the positive quotient is `Int.floor`;
`round(velocity, 5)` is modelled by `roundTo 5`. -/
def calculate_drift_velocity (records : List CheckRecord) : DriftVelocity :=
  if records.length < 3 then
    { velocity := none, estimated_checks_to_threshold := none,
      is_accelerating := false, current_dir := none }
  else
    let dir_values := dirValues records
    let total_change := dir_values.getLastD 0 - dir_values.headD 0
    let velocity := total_change / ((dir_values.length : ℚ) - 1)
    let estimated_checks : Option ℤ :=
      if velocity < 0 ∧ dir_values.getLastD 0 > 4/5 then
        some ⌊(dir_values.getLastD 0 - 4/5) / |velocity|⌋
      else none
    let is_accelerating : Bool :=
      if dir_values.length ≥ 6 then
        let m := dir_values.length / 2
        let first_half_velocity :=
          (dir_values.getD m 0 - dir_values.getD 0 0) / (m : ℚ)
        let second_half_velocity :=
          (dir_values.getLastD 0 - dir_values.getD m 0) / ((dir_values.length : ℚ) - (m : ℚ))
        if second_half_velocity < first_half_velocity then true else false
      else false
    { velocity := some (roundTo 5 velocity),
      estimated_checks_to_threshold := estimated_checks,
      is_accelerating := is_accelerating,
      current_dir := some (roundTo 4 (dir_values.getLastD 0)) }

/-! ## config.py — fairlens/biascheck `Config` defaults (no env overrides) -/

namespace Config

def DIR_THRESHOLD : ℚ := 4/5
def SPD_THRESHOLD : ℚ := 1/10
def EOD_THRESHOLD : ℚ := 1/10
def AOD_THRESHOLD : ℚ := 1/10
def THEIL_THRESHOLD : ℚ := 3/20
def DRIFT_WINDOW_SIZE : ℕ := 10
def DRIFT_VELOCITY_THRESHOLD : ℚ := -(1/100)
def DRIFT_ACCELERATION_THRESHOLD : ℚ := -(1/200)

end Config

/-! ## drift_monitor.py (class DriftMonitor)

The `fairness_trend` table is modelled as a list of rows in chronological
(`created_at` ascending) order, passed explicitly.  `np.random.choice` in the
bootstrap is modelled by an explicit index oracle `draws : ℕ → ℕ → ℕ`
(iteration, position ↦ chosen index, reduced mod the window length), and
`np.exp` by a function parameter `expQ`. -/

/-- One row of the `fairness_trend` table, and equally one element of the
`trends` dictionaries built from it (`timestamp`/`value`/`created_at`). -/
structure TrendRow where
  timestamp : String
  value : ℚ
  created_at : String
  deriving DecidableEq

/-- `DriftMonitor.get_recent_trends`: `SELECT ... ORDER BY created_at DESC
LIMIT window_size`, then reversed back to chronological order.  The SQL reads
the `dir` column whatever `metric_name` says. -/
def get_recent_trends (metric_name : String) (window_size : ℕ)
    (table : List TrendRow) : List TrendRow :=
  ((table.reverse.take window_size).reverse)

/-- `np.diff`: successive differences. -/
def diffs (xs : List ℚ) : List ℚ := List.zipWith (fun a b => b - a) xs xs.tail

/-- Slope of the degree-1 least-squares fit of `values` against indices
`0..n-1` (`np.polyfit(x, values, 1)[0]`). -/
def olsSlope (values : List ℚ) : ℚ :=
  let xs : List ℚ := (List.range values.length).map (fun i => (i : ℚ))
  let xbar := mean xs
  let ybar := mean values
  let sxy := ((xs.zip values).map (fun p => (p.1 - xbar) * (p.2 - ybar))).sum
  let sxx := (xs.map (fun x => (x - xbar) ^ 2)).sum
  sxy / sxx

/-- Intercept of the same least-squares fit (`np.polyfit(x, values, 1)[1]`). -/
def olsIntercept (values : List ℚ) : ℚ :=
  mean values - olsSlope values * mean ((List.range values.length).map (fun i => (i : ℚ)))

/-- `DriftMonitor.calculate_velocity`. -/
def calculate_velocity (trends : List TrendRow) : ℚ :=
  if trends.length < 2 then 0
  else olsSlope (trends.map (·.value))

/-- `DriftMonitor.calculate_acceleration`: mean of the second differences of
the window (0 sentinel below 3 points). -/
def calculate_acceleration (trends : List TrendRow) : ℚ :=
  if trends.length < 3 then 0
  else
    let velocities := diffs (trends.map (·.value))
    if velocities.length < 2 then 0
    else mean (diffs velocities)

/-- `np.percentile` with the default linear interpolation. -/
def percentile (xs : List ℚ) (p : ℚ) : ℚ :=
  let s := sortQ xs
  let n := s.length
  let rank := p / 100 * ((n : ℚ) - 1)
  let i := ⌊rank⌋
  let frac := rank - (i : ℚ)
  if 0 ≤ i ∧ i.toNat + 1 < n then
    s.getD i.toNat 0 + frac * (s.getD (i.toNat + 1) 0 - s.getD i.toNat 0)
  else s.getD i.toNat 0

/-- `DriftMonitor.calculate_confidence_interval`: bootstrap with 1000
resamples of the window (resampling indices supplied by `draws`). -/
def calculate_confidence_interval (draws : ℕ → ℕ → ℕ) (trends : List TrendRow)
    (confidence : ℚ) : ℚ × ℚ :=
  if trends.length < 2 then (0, 0)
  else
    let values := trends.map (·.value)
    let n_bootstrap := 1000
    let bootstrap_means := (List.range n_bootstrap).map (fun k =>
      mean ((List.range values.length).map (fun t => values.getD (draws k t % values.length) 0)))
    let alpha := 1 - confidence
    let lower_percentile := alpha / 2 * 100
    let upper_percentile := (1 - alpha / 2) * 100
    (percentile bootstrap_means lower_percentile, percentile bootstrap_means upper_percentile)

/-- One entry of the `predictions` list of `DriftMonitor.predict_future_drift`. -/
structure Prediction where
  period : ℕ
  predicted_value : ℚ
  confidence : ℚ
  deriving DecidableEq

/-- `DriftMonitor._calculate_prediction_confidence`:
`clamp(min(n/20,1)·exp(-0.15·periods_ahead), 0.1, 1)`. -/
def predictionConfidence (expQ : ℚ → ℚ) (trends : List TrendRow) (periods_ahead : ℕ) : ℚ :=
  if trends.length < 2 then 0
  else
    let base_confidence := min ((trends.length : ℚ) / 20) 1
    let decay_factor : ℚ := 3/20
    let confidence := base_confidence * expQ (-decay_factor * (periods_ahead : ℚ))
    max (1/10) (min confidence 1)

/-- `DriftMonitor.predict_future_drift`: linear extrapolation
`slope·(n+i) + intercept` for `i = 1..horizon` (empty below 3 points). -/
def predict_future_drift (expQ : ℚ → ℚ) (trends : List TrendRow) (horizon : ℕ) :
    List Prediction :=
  if trends.length < 3 then []
  else
    let values := trends.map (·.value)
    let slope := olsSlope values
    let intercept := olsIntercept values
    (List.range horizon).map (fun j =>
      let i := j + 1
      { period := i,
        predicted_value := slope * ((values.length : ℚ) + (i : ℚ)) + intercept,
        confidence := predictionConfidence expQ trends i })

/-- Result dictionary of `DriftMonitor.calculate_risk_score` (the `factors`
sub-dictionary is flattened into three fields). -/
structure RiskAssessment where
  risk_score : ℚ
  risk_level : String
  severity : String
  needs_retraining : Bool
  distance_to_threshold : ℚ
  velocity_risk : ℚ
  acceleration_risk : ℚ
  recommendation : String
  deriving DecidableEq

/-- `DriftMonitor._get_recommendation` (emoji prefixes dropped). -/
def getRecommendation (risk_level : String) (needs_retraining : Bool) : String :=
  if risk_level = "HIGH" then
    if needs_retraining then
      "CRITICAL: Immediate model retraining required. Bias drift is accelerating rapidly."
    else "HIGH RISK: Monitor closely. Consider retraining if trend continues."
  else if risk_level = "MEDIUM" then
    if needs_retraining then
      "WARNING: Model retraining recommended within 48 hours to prevent bias escalation."
    else "MEDIUM RISK: Increase monitoring frequency. Review feature distributions."
  else "LOW RISK: System operating within acceptable fairness parameters."

/-- `DriftMonitor.calculate_risk_score`. -/
def calculate_risk_score (velocity acceleration current_value threshold : ℚ) :
    RiskAssessment :=
  let distance_to_threshold := current_value - threshold
  let velocity_risk := if velocity < 0 then |velocity| else 0
  let acceleration_risk := if acceleration < 0 then |acceleration| else 0
  let raw_score :=
    2/5 * (1 - max 0 distance_to_threshold / (1/5)) +
    7/20 * min (velocity_risk * 10) 1 +
    1/4 * min (acceleration_risk * 20) 1
  let risk_score := max 0 (min raw_score 1)
  let risk_level := if risk_score ≥ 7/10 then "HIGH"
    else if risk_score ≥ 2/5 then "MEDIUM" else "LOW"
  let severity := if risk_score ≥ 7/10 then "critical"
    else if risk_score ≥ 2/5 then "medium" else "low"
  let needs_retraining : Bool :=
    if velocity < Config.DRIFT_VELOCITY_THRESHOLD ∨
       acceleration < Config.DRIFT_ACCELERATION_THRESHOLD ∨
       current_value < threshold then true else false
  { risk_score := risk_score, risk_level := risk_level, severity := severity,
    needs_retraining := needs_retraining,
    distance_to_threshold := distance_to_threshold,
    velocity_risk := velocity_risk, acceleration_risk := acceleration_risk,
    recommendation := getRecommendation risk_level needs_retraining }

/-- The success dictionary of `DriftMonitor.generate_drift_report`
(`analysis_timestamp`, a wall-clock read, is omitted). -/
structure DriftReport where
  metric_name : String
  current_value : ℚ
  velocity : ℚ
  acceleration : ℚ
  ci_lower : ℚ
  ci_upper : ℚ
  confidence_level : ℚ
  predictions : List Prediction
  risk_assessment : RiskAssessment
  trend_data : List TrendRow
  is_accelerating : Bool
  is_degrading : Bool
  deriving DecidableEq

/-- `generate_drift_report` either reports or returns the tagged
INSUFFICIENT_DATA dictionary (with its `trends_count`); it never raises. -/
inductive DriftReportResult where
  | insufficientData (trends_count : ℕ)
  | report (r : DriftReport)
  deriving DecidableEq

/-- `DriftMonitor.generate_drift_report`. -/
def generate_drift_report (expQ : ℚ → ℚ) (draws : ℕ → ℕ → ℕ)
    (metric_name : String) (table : List TrendRow) : DriftReportResult :=
  let trends := get_recent_trends metric_name Config.DRIFT_WINDOW_SIZE table
  if trends.length < 2 then DriftReportResult.insufficientData trends.length
  else
    let current_value := ((trends.getLast?).map (·.value)).getD 0
    let velocity := calculate_velocity trends
    let acceleration := calculate_acceleration trends
    let ci := calculate_confidence_interval draws trends (19/20)
    let predictions := predict_future_drift expQ trends 5
    let risk_assessment := calculate_risk_score velocity acceleration current_value (4/5)
    DriftReportResult.report
      { metric_name := metric_name, current_value := current_value,
        velocity := velocity, acceleration := acceleration,
        ci_lower := ci.1, ci_upper := ci.2, confidence_level := 19/20,
        predictions := predictions, risk_assessment := risk_assessment,
        trend_data := trends,
        is_accelerating := decide (acceleration < Config.DRIFT_ACCELERATION_THRESHOLD),
        is_degrading := decide (velocity < Config.DRIFT_VELOCITY_THRESHOLD) }

/-! ## fairness_trend.py -/

/-- Truthiness test `estimated_checks and estimated_checks <= b` from
`predict_fairness_drift` (a `None` or a 0 count is falsy). -/
def estTruthyLe (o : Option ℤ) (b : ℤ) : Bool :=
  match o with
  | some k => decide (k ≠ 0) && decide (k ≤ b)
  | none => false

/-- Result of `predict_fairness_drift`: either the insufficient-data
dictionary (prediction "unknown", confidence 0, no severity key) or the full
result (message/recommendation/details omitted). -/
inductive DriftPrediction where
  | unknown
  | result (prediction : String) (confidence : ℚ) (severity : String)
      (estimated_checks_to_threshold : Option ℤ) (current_dir : ℚ)
      (trend : String) (velocity : ℚ) (is_accelerating : Bool)
  deriving DecidableEq

/-- `fairness_trend.predict_fairness_drift`, with the fetched window passed
explicitly (both its internal calls read the same window). -/
def predict_fairness_drift (threshold : ℚ) (records : List CheckRecord) :
    DriftPrediction :=
  let trend_data := get_recent_trend records
  let velocity_data := calculate_drift_velocity records
  if trend_data.data_points < 3 then DriftPrediction.unknown
  else
    let current_dir := trend_data.average_dir.getD 0
    let trend := trend_data.trend_direction
    let velocity := velocity_data.velocity.getD 0
    let estimated_checks := velocity_data.estimated_checks_to_threshold
    let is_accelerating := velocity_data.is_accelerating
    let mk := fun (p : String) (c : ℚ) (s : String) =>
      DriftPrediction.result p c s estimated_checks current_dir trend velocity is_accelerating
    if current_dir < threshold then mk "critical" 1 "high"
    else if current_dir < threshold + 1/20 then mk "critical" (9/10) "high"
    else if trend = "down" then
      if is_accelerating then mk "warning" (17/20) "medium"
      else if estTruthyLe estimated_checks 5 then mk "warning" (4/5) "medium"
      else if estTruthyLe estimated_checks 10 then mk "warning" (7/10) "low"
      else mk "caution" (3/5) "low"
    else if trend = "stable" ∨ trend = "up" then mk "safe" (4/5) "none"
    else mk "safe" (1/2) "none"

/-! ## metrics_engine.py

Inputs are the three equal-length arrays `y_true`, `y_pred`,
`protected_attribute`, modelled as lists of rationals.  numpy boolean-mask
selection `arr[protected_attribute == g]` is modelled by `selectGroup` /
`groupPairs`; a mask whose length differs from the indexed array raises in
numpy, modelled by the explicit length guard feeding the engine's
`try/except`.  `np.log` is abstracted as the parameter `logQ`. -/

/-- `y_pred[protected_attribute == g]`. -/
def selectGroup (ys ps : List ℚ) (g : ℚ) : List ℚ :=
  ((ys.zip ps).filter (fun p => decide (p.2 = g))).map (·.1)

/-- `(y_true[mask], y_pred[mask])` rows for group `g`. -/
def groupPairs (y_true y_pred ps : List ℚ) (g : ℚ) : List (ℚ × ℚ) :=
  (((y_true.zip y_pred).zip ps).filter (fun p => decide (p.2 = g))).map (·.1)

/-- `calculate_tpr` / the TPR half of `calculate_rates`: true positives over
positives, 0 when the group has no positives. -/
def tprOf (pairs : List (ℚ × ℚ)) : ℚ :=
  let pos := pairs.filter (fun p => decide (p.1 = 1))
  if pos.length = 0 then 0
  else ((pairs.filter (fun p => decide (p.1 = 1) && decide (p.2 = 1))).length : ℚ) /
    (pos.length : ℚ)

/-- The FPR half of `calculate_rates`: false positives over negatives, 0 when
the group has no negatives. -/
def fprOf (pairs : List (ℚ × ℚ)) : ℚ :=
  let neg := pairs.filter (fun p => decide (p.1 = 0))
  if neg.length = 0 then 0
  else ((pairs.filter (fun p => decide (p.1 = 0) && decide (p.2 = 1))).length : ℚ) /
    (neg.length : ℚ)

/-- One metric's result dictionary: the common core fields of the five
metrics' dictionaries and of the engine's ERROR dictionary.  Per-metric
diagnostic extras (group rates, TPR/FPR breakdowns) are omitted; the ERROR
dictionary carries no `value`/`threshold`/`is_fair` keys, modelled as
`none`/`false` (the engine's summary reads `is_fair` with default `False`). -/
structure MetricResult where
  name : String
  value : Option ℚ
  threshold : Option ℚ
  is_fair : Bool
  status : String
  error : Option String
  deriving DecidableEq

/-- `DisparateImpactRatio.calculate` (metrics_engine.py lines 58-91). -/
def dirCalculate (y_true y_pred protected_attribute : List ℚ) : Except String MetricResult :=
  if protected_attribute.length ≠ y_pred.length then Except.error "boolean index mismatch"
  else
    let priv := selectGroup y_pred protected_attribute 0
    let prot := selectGroup y_pred protected_attribute 1
    let privileged_approval_rate := if priv.length > 0 then mean priv else 0
    let protected_approval_rate := if prot.length > 0 then mean prot else 0
    let dir_value := if privileged_approval_rate > 0 then
      protected_approval_rate / privileged_approval_rate else 0
    let is_fair := decide (dir_value ≥ Config.DIR_THRESHOLD)
    Except.ok
      { name := "Disparate Impact Ratio (DIR)", value := some dir_value,
        threshold := some Config.DIR_THRESHOLD, is_fair := is_fair,
        status := if is_fair then "PASS" else "FAIL", error := none }

/-- `StatisticalParityDifference.calculate` (lines 100-130). -/
def spdCalculate (y_true y_pred protected_attribute : List ℚ) : Except String MetricResult :=
  if protected_attribute.length ≠ y_pred.length then Except.error "boolean index mismatch"
  else
    let priv := selectGroup y_pred protected_attribute 0
    let prot := selectGroup y_pred protected_attribute 1
    let privileged_approval_rate := if priv.length > 0 then mean priv else 0
    let protected_approval_rate := if prot.length > 0 then mean prot else 0
    let spd_value := protected_approval_rate - privileged_approval_rate
    let is_fair := decide (|spd_value| ≤ Config.SPD_THRESHOLD)
    Except.ok
      { name := "Statistical Parity Difference (SPD)", value := some spd_value,
        threshold := some Config.SPD_THRESHOLD, is_fair := is_fair,
        status := if is_fair then "PASS" else "FAIL", error := none }

/-- `EqualOpportunityDifference.calculate` (lines 140-175). -/
def eodCalculate (y_true y_pred protected_attribute : List ℚ) : Except String MetricResult :=
  if protected_attribute.length ≠ y_pred.length ∨ protected_attribute.length ≠ y_true.length then
    Except.error "boolean index mismatch"
  else
    let privileged_tpr := tprOf (groupPairs y_true y_pred protected_attribute 0)
    let protected_tpr := tprOf (groupPairs y_true y_pred protected_attribute 1)
    let eod_value := protected_tpr - privileged_tpr
    let is_fair := decide (|eod_value| ≤ Config.EOD_THRESHOLD)
    Except.ok
      { name := "Equal Opportunity Difference (EOD)", value := some eod_value,
        threshold := some Config.EOD_THRESHOLD, is_fair := is_fair,
        status := if is_fair then "PASS" else "FAIL", error := none }

/-- `AverageOddsDifference.calculate` (lines 193-242). -/
def aodCalculate (y_true y_pred protected_attribute : List ℚ) : Except String MetricResult :=
  if protected_attribute.length ≠ y_pred.length ∨ protected_attribute.length ≠ y_true.length then
    Except.error "boolean index mismatch"
  else
    let pairsPriv := groupPairs y_true y_pred protected_attribute 0
    let pairsProt := groupPairs y_true y_pred protected_attribute 1
    let tpr_diff := tprOf pairsProt - tprOf pairsPriv
    let fpr_diff := fprOf pairsProt - fprOf pairsPriv
    let aod_value := 1/2 * (tpr_diff + fpr_diff)
    let is_fair := decide (|aod_value| ≤ Config.AOD_THRESHOLD)
    Except.ok
      { name := "Average Odds Difference (AOD)", value := some aod_value,
        threshold := some Config.AOD_THRESHOLD, is_fair := is_fair,
        status := if is_fair then "PASS" else "FAIL", error := none }

/-- `TheilIndex.calculate` (lines 260-299); `np.log` is the parameter
`logQ`. -/
def theilCalculate (logQ : ℚ → ℚ) (y_true y_pred protected_attribute : List ℚ) :
    Except String MetricResult :=
  if protected_attribute.length ≠ y_pred.length then Except.error "boolean index mismatch"
  else
    let priv := selectGroup y_pred protected_attribute 0
    let prot := selectGroup y_pred protected_attribute 1
    let privileged_rate := if priv.length > 0 then mean priv else 0
    let protected_rate := if prot.length > 0 then mean prot else 0
    let overall_rate := mean y_pred
    let theil_value :=
      if overall_rate = 0 ∨ overall_rate = 1 then 0
      else
        let privileged_prop := (priv.length : ℚ) / (protected_attribute.length : ℚ)
        let protected_prop := (prot.length : ℚ) / (protected_attribute.length : ℚ)
        let contrib := fun (rate prop : ℚ) =>
          if rate = 0 ∨ prop = 0 then 0
          else prop * (rate / overall_rate) * logQ (rate / overall_rate)
        contrib privileged_rate privileged_prop + contrib protected_rate protected_prop
    let is_fair := decide (theil_value ≤ Config.THEIL_THRESHOLD)
    Except.ok
      { name := "Theil Index", value := some theil_value,
        threshold := some Config.THEIL_THRESHOLD, is_fair := is_fair,
        status := if is_fair then "PASS" else "FAIL", error := none }

/-- The engine's per-metric `try/except`: an exception becomes the ERROR
dictionary for that slot only. -/
def guardMetric (name : String) (r : Except String MetricResult) : MetricResult :=
  match r with
  | Except.ok v => v
  | Except.error e =>
    { name := name, value := none, threshold := none, is_fair := false,
      status := "ERROR", error := some e }

/-- `MetricsEngine._get_compliance_level`. -/
def getComplianceLevel (passed total : ℕ) : String :=
  let score := (passed : ℚ) / (total : ℚ)
  if score = 1 then "FULL_COMPLIANCE"
  else if score ≥ 4/5 then "HIGH_COMPLIANCE"
  else if score ≥ 3/5 then "MODERATE_COMPLIANCE"
  else if score ≥ 2/5 then "LOW_COMPLIANCE"
  else "NON_COMPLIANT"

/-- The `summary` block of `calculate_all_metrics`. -/
structure AggregateSummary where
  total_metrics : ℕ
  passed : ℕ
  failed : ℕ
  fairness_score : ℚ
  overall_status : String
  compliance_level : String
  deriving DecidableEq

/-- Result of `calculate_all_metrics`. -/
structure AggregateResult where
  all_metrics : List (String × MetricResult)
  summary : AggregateSummary
  deriving DecidableEq

/-- `MetricsEngine.calculate_all_metrics`: the five metrics in registration
order, each behind the per-metric `try/except`, then the aggregate summary. -/
def calculate_all_metrics (logQ : ℚ → ℚ) (y_true y_pred protected_attribute : List ℚ) :
    AggregateResult :=
  let results : List (String × MetricResult) :=
    [("DIR", guardMetric "Disparate Impact Ratio (DIR)" (dirCalculate y_true y_pred protected_attribute)),
     ("SPD", guardMetric "Statistical Parity Difference (SPD)" (spdCalculate y_true y_pred protected_attribute)),
     ("EOD", guardMetric "Equal Opportunity Difference (EOD)" (eodCalculate y_true y_pred protected_attribute)),
     ("AOD", guardMetric "Average Odds Difference (AOD)" (aodCalculate y_true y_pred protected_attribute)),
     ("THEIL", guardMetric "Theil Index" (theilCalculate logQ y_true y_pred protected_attribute))]
  let passed_metrics := (results.filter (fun p => p.2.is_fair)).length
  let total_metrics := results.length
  { all_metrics := results,
    summary :=
      { total_metrics := total_metrics, passed := passed_metrics,
        failed := total_metrics - passed_metrics,
        fairness_score := (passed_metrics : ℚ) / (total_metrics : ℚ),
        overall_status := if passed_metrics = total_metrics then "PASS" else "FAIL",
        compliance_level := getComplianceLevel passed_metrics total_metrics } }

/-! ## Claim-side comparison definitions -/

/-- The pre-alert severity ladder exactly as claim C1 words it (first match
wins): (1) current average DIR < threshold → "high"; (2) trend "down" and
accelerating → "medium"; (3) trend "down" and estimated checks-to-threshold
≤ 5 → "medium"; (4) trend "down" and estimated checks ≤ 10 → "low"; (5)
trend "down" otherwise → "low"; (6) stable/up → no alert.  For comparison
with what `check_pre_alert` actually computes. -/
def claimedPreAlertSeverity (threshold : ℚ) (records : List CheckRecord) : String :=
  let t := get_recent_trend records
  let v := calculate_drift_velocity records
  let avg := t.average_dir.getD 0
  if avg < threshold then "high"
  else if t.trend_direction = "down" ∧ v.is_accelerating then "medium"
  else if t.trend_direction = "down" ∧
      v.estimated_checks_to_threshold.any (fun k => decide (k ≤ 5)) then "medium"
  else if t.trend_direction = "down" ∧
      v.estimated_checks_to_threshold.any (fun k => decide (k ≤ 10)) then "low"
  else if t.trend_direction = "down" then "low"
  else "none"

/-- Erase the echoed `metric_name` field of a drift report, leaving exactly
the numeric content (all other fields). -/
def stripMetricName : DriftReportResult → DriftReportResult
  | DriftReportResult.insufficientData n => DriftReportResult.insufficientData n
  | DriftReportResult.report r => DriftReportResult.report { r with metric_name := "" }

/-- Swap the 0/1 encoding of the protected attribute (claim C9's relabelling;
values other than 0/1 are left alone). -/
def swap01 (x : ℚ) : ℚ := if x = 0 then 1 else if x = 1 then 0 else x

/-! ## Theorems for the trend analyzer -/

/-- A guarded group rate `if len > 0 then mean l else 0` is just `mean l`
(the mean of the empty list is the 0 sentinel in this embedding). -/
lemma rate_if_eq_mean (l : List ℚ) : (if l.length > 0 then mean l else 0) = mean l := by
  rcases l with _ | ⟨x, xs⟩
  · simp [mean]
  · simp

/-- **C7** (corrected): `trend_direction` is "down"/"up" only when the
second-half mean differs from the first-half mean by strictly more than 0.05
(at exactly 0.05 it is "stable"); with 1-3 points it is "stable"; but an
empty window reports "unknown", not "stable". -/
theorem trend_direction_characterization (records : List CheckRecord) :
    (get_recent_trend records).trend_direction =
      (if records.length = 0 then "unknown"
       else if records.length < 4 then "stable"
       else if mean ((dirValues records).drop (records.length / 2)) -
           mean ((dirValues records).take (records.length / 2)) < -(1/20) then "down"
       else if mean ((dirValues records).drop (records.length / 2)) -
           mean ((dirValues records).take (records.length / 2)) > 1/20 then "up"
       else "stable") := by
  rcases records with _ | ⟨r, rs⟩
  · simp [get_recent_trend]
  · have hlen : (dirValues (r :: rs)).length = (r :: rs).length := by
      simp [dirValues]
    simp only [get_recent_trend, List.isEmpty_cons, Bool.false_eq_true, if_false,
      trendDirection, hlen]
    by_cases h4 : (r :: rs).length ≥ 4
    · rw [if_pos h4, if_neg (show ¬(r :: rs).length = 0 by simp),
        if_neg (show ¬(r :: rs).length < 4 by omega)]
    · rw [if_neg h4, if_neg (show ¬(r :: rs).length = 0 by simp),
        if_pos (show (r :: rs).length < 4 by omega)]

/-- **C7 counterexample**: the empty window reports "unknown", not the
claimed "stable" default for windows of fewer than 4 points. -/
theorem trend_direction_empty_cex :
    (get_recent_trend []).trend_direction = "unknown" ∧ "unknown" ≠ "stable" := by
  refine ⟨rfl, ?_⟩
  decide

/-- **C10** (confirmed): below 3 records `calculate_drift_velocity` returns
the tagged null result (velocity, estimate both absent, `is_accelerating`
false) instead of raising, and `is_accelerating` can be true only with at
least 6 values in the window. -/
theorem drift_velocity_insufficient_and_accel (records : List CheckRecord) :
    (records.length < 3 →
      calculate_drift_velocity records =
        { velocity := none, estimated_checks_to_threshold := none,
          is_accelerating := false, current_dir := none }) ∧
    ((calculate_drift_velocity records).is_accelerating = true → 6 ≤ records.length) := by
  constructor
  · intro h
    simp [calculate_drift_velocity, h]
  · intro h
    by_contra hlt
    push_neg at hlt
    rcases lt_or_ge records.length 3 with h3 | h3
    · simp [calculate_drift_velocity, h3] at h
    · have hd : (dirValues records).length = records.length := by
        simp [dirValues]
      simp only [calculate_drift_velocity, if_neg (by omega : ¬records.length < 3), hd] at h
      rw [if_neg (by omega : ¬records.length ≥ 6)] at h
      exact absurd h (by simp)

/-- **C10 witness**: the empty window hits the insufficient-data branch. -/
theorem drift_velocity_insufficient_witness :
    ([] : List CheckRecord).length < 3 ∧
      calculate_drift_velocity [] =
        { velocity := none, estimated_checks_to_threshold := none,
          is_accelerating := false, current_dir := none } :=
  ⟨by decide, (drift_velocity_insufficient_and_accel []).1 (by decide)⟩

/-- **C8** (corrected): for a window of at least 3 values,
`calculate_drift_velocity` computes the two-point endpoint slope
`(last - first)/(n - 1)` (not an OLS fit) but returns it rounded to 5
decimal places, and returns `estimated_checks_to_threshold =
floor(distance_to_threshold / |velocity|)` (from the unrounded slope)
exactly when the slope is negative and the current value exceeds the
hard-coded 0.8 threshold, else null. -/
theorem drift_velocity_formula (records : List CheckRecord)
    (h : 3 ≤ records.length) :
    (calculate_drift_velocity records).velocity =
      some (roundTo 5 (((dirValues records).getLastD 0 - (dirValues records).headD 0) /
        ((records.length : ℚ) - 1))) ∧
    (calculate_drift_velocity records).estimated_checks_to_threshold =
      (if ((dirValues records).getLastD 0 - (dirValues records).headD 0) /
            ((records.length : ℚ) - 1) < 0 ∧
          (dirValues records).getLastD 0 > 4/5 then
        some ⌊((dirValues records).getLastD 0 - 4/5) /
          |((dirValues records).getLastD 0 - (dirValues records).headD 0) /
            ((records.length : ℚ) - 1)|⌋
      else none) := by
  have hl : (dirValues records).length = records.length := by simp [dirValues]
  simp only [calculate_drift_velocity, if_neg (show ¬records.length < 3 by omega), hl]
  constructor <;> trivial

/-- **C8 witness**: a concrete 3-point window satisfying the hypothesis. -/
theorem drift_velocity_formula_witness :
    3 ≤ ([⟨1, false⟩, ⟨1, false⟩, ⟨1, false⟩] : List CheckRecord).length ∧
      (calculate_drift_velocity [⟨1, false⟩, ⟨1, false⟩, ⟨1, false⟩]).velocity =
        some (roundTo 5 (((dirValues [⟨1, false⟩, ⟨1, false⟩, ⟨1, false⟩]).getLastD 0 -
          (dirValues [⟨1, false⟩, ⟨1, false⟩, ⟨1, false⟩]).headD 0) / ((3 : ℚ) - 1))) :=
  ⟨by decide, (drift_velocity_formula [⟨1, false⟩, ⟨1, false⟩, ⟨1, false⟩] (by decide)).1⟩

/-- **C8 counterexample**: on the chronological window [1,0,0,0,0,0,0] the
returned velocity is the 5-decimal rounding -16667/100000, not the exact
two-point slope (0 - 1)/(7 - 1) = -1/6 the claim states. -/
theorem drift_velocity_rounding_cex :
    (calculate_drift_velocity [⟨0, false⟩, ⟨0, false⟩, ⟨0, false⟩, ⟨0, false⟩,
        ⟨0, false⟩, ⟨0, false⟩, ⟨1, false⟩]).velocity = some (-(16667/100000)) ∧
      (-(16667/100000) : ℚ) ≠ ((0 : ℚ) - 1) / ((7 : ℚ) - 1) := by
  constructor
  · norm_num [calculate_drift_velocity, dirValues, roundTo, rne]
  · norm_num

/-- **C1** (corrected): the severity ladder `check_pre_alert` actually
implements, for any window with at least one data point: (1) rounded average
DIR < threshold → "high"; (2) otherwise trend "down" and rounded average <
threshold + 0.1 → "medium"; (3) otherwise trend "down" → "low"; (4)
otherwise no alert; and `pre_alert` is set iff some severity fired.
(Acceleration and estimated checks-to-threshold play no role here; that
ladder lives in `predict_fairness_drift`.) -/
theorem check_pre_alert_ladder (threshold : ℚ) (records : List CheckRecord)
    (h : records ≠ []) :
    (check_pre_alert threshold records).severity =
      (if roundTo 4 (mean (dirValues records)) < threshold then "high"
       else if trendDirection (dirValues records) = "down" then
         if roundTo 4 (mean (dirValues records)) < threshold + 1/10 then "medium" else "low"
       else "none") ∧
    ((check_pre_alert threshold records).pre_alert = true ↔
      (check_pre_alert threshold records).severity ≠ "none") := by
  rcases records with _ | ⟨r, rs⟩
  · exact absurd rfl h
  · have hne : ¬(dirValues (r :: rs)).length = 0 := by simp [dirValues]
    simp only [check_pre_alert, get_recent_trend, List.isEmpty_cons, Bool.false_eq_true,
      if_false, Option.getD_some]
    rw [if_neg hne]
    split_ifs <;> simp_all

/-- **C1 witness**: a concrete nonempty window. -/
theorem check_pre_alert_ladder_witness :
    ([⟨1, false⟩] : List CheckRecord) ≠ [] ∧
      ((check_pre_alert (4/5) [⟨1, false⟩]).severity =
        (if roundTo 4 (mean (dirValues [⟨1, false⟩])) < 4/5 then "high"
         else if trendDirection (dirValues [⟨1, false⟩]) = "down" then
           if roundTo 4 (mean (dirValues [⟨1, false⟩])) < 4/5 + 1/10 then "medium" else "low"
         else "none") ∧
        ((check_pre_alert (4/5) [⟨1, false⟩]).pre_alert = true ↔
          (check_pre_alert (4/5) [⟨1, false⟩]).severity ≠ "none")) :=
  ⟨by simp, check_pre_alert_ladder (4/5) [⟨1, false⟩] (by simp)⟩

/-- **C1 counterexample**: a 6-point declining, accelerating window whose
average stays at least 0.1 above the threshold.  The claimed ladder (rule 2:
down and accelerating → medium) gives "medium", but `check_pre_alert`
returns "low": its real ladder never consults acceleration or estimated
checks-to-threshold. -/
theorem check_pre_alert_ladder_cex :
    (check_pre_alert (4/5) [⟨1, false⟩, ⟨6/5, false⟩, ⟨13/10, false⟩, ⟨7/5, false⟩,
        ⟨29/20, false⟩, ⟨3/2, false⟩]).severity = "low" ∧
      claimedPreAlertSeverity (4/5) [⟨1, false⟩, ⟨6/5, false⟩, ⟨13/10, false⟩, ⟨7/5, false⟩,
        ⟨29/20, false⟩, ⟨3/2, false⟩] = "medium" ∧
      ("low" : String) ≠ "medium" := by
  refine ⟨?_, ?_, by decide⟩
  · norm_num [check_pre_alert, get_recent_trend, dirValues, trendDirection, mean,
      roundTo, rne, median, sortQ, insertSorted, listMin, listMax]
  · norm_num [claimedPreAlertSeverity, check_pre_alert, get_recent_trend,
      calculate_drift_velocity, dirValues, trendDirection, mean,
      roundTo, rne, median, sortQ, insertSorted, listMin, listMax]

/-! ## Theorems for the drift monitor -/

/-- A window no longer than the limit is returned whole (in chronological
order). -/
lemma get_recent_trends_of_le (m : String) (w : ℕ) (table : List TrendRow)
    (h : table.length ≤ w) : get_recent_trends m w table = table := by
  unfold get_recent_trends
  rw [List.take_of_length_le (by simpa using h), List.reverse_reverse]

/-- OLS slope over two points is the plain difference. -/
lemma olsSlope_pair (y0 y1 : ℚ) : olsSlope [y0, y1] = y1 - y0 := by
  simp only [olsSlope, mean, List.length_cons, List.length_nil, List.range_succ,
    List.range_zero]
  norm_num
  ring_nf

/-- OLS slope over three points is half the endpoint difference. -/
lemma olsSlope_triple (y0 y1 y2 : ℚ) : olsSlope [y0, y1, y2] = (y2 - y0) / 2 := by
  simp only [olsSlope, mean, List.length_cons, List.length_nil, List.range_succ,
    List.range_zero]
  norm_num

/-- **C3** (confirmed): `get_recent_trends` ignores which metric is asked for
(the SQL always reads the DIR column), so two drift reports over the same
table differ at most in the echoed `metric_name` field. -/
theorem drift_report_ignores_metric_name (m1 m2 : String) (w : ℕ)
    (table : List TrendRow) (expQ : ℚ → ℚ) (draws : ℕ → ℕ → ℕ) :
    get_recent_trends m1 w table = get_recent_trends m2 w table ∧
    stripMetricName (generate_drift_report expQ draws m1 table) =
      stripMetricName (generate_drift_report expQ draws m2 table) := by
  refine ⟨rfl, ?_⟩
  simp only [generate_drift_report]
  have hg : get_recent_trends m2 Config.DRIFT_WINDOW_SIZE table =
      get_recent_trends m1 Config.DRIFT_WINDOW_SIZE table := rfl
  rw [hg]
  split <;> rfl

/-- **C2** (confirmed): `generate_drift_report` with exactly 1 observation
returns the tagged INSUFFICIENT_DATA result (no exception); with exactly 2 it
reports a velocity but the 0-sentinel acceleration and no forecasts; with
exactly 3 it reports the OLS velocity, a computed acceleration
(discrete second difference), 5 forecast points, the bootstrap confidence
interval, and a risk assessment. -/
theorem generate_drift_report_gating (expQ : ℚ → ℚ) (draws : ℕ → ℕ → ℕ)
    (m : String) :
    (∀ r0 : TrendRow, generate_drift_report expQ draws m [r0] =
      DriftReportResult.insufficientData 1) ∧
    (∀ r0 r1 : TrendRow, ∃ rep : DriftReport,
      generate_drift_report expQ draws m [r0, r1] = DriftReportResult.report rep ∧
      rep.velocity = r1.value - r0.value ∧ rep.acceleration = 0 ∧
      rep.predictions = []) ∧
    (∀ r0 r1 r2 : TrendRow, ∃ rep : DriftReport,
      generate_drift_report expQ draws m [r0, r1, r2] = DriftReportResult.report rep ∧
      rep.velocity = (r2.value - r0.value) / 2 ∧
      rep.acceleration = r2.value - 2 * r1.value + r0.value ∧
      rep.predictions.length = 5 ∧ rep.current_value = r2.value ∧
      rep.confidence_level = 19/20 ∧
      rep.risk_assessment =
        calculate_risk_score rep.velocity rep.acceleration r2.value (4/5)) := by
  refine ⟨?_, ?_, ?_⟩
  · intro r0
    rw [generate_drift_report, get_recent_trends_of_le m _ [r0] (by simp [Config.DRIFT_WINDOW_SIZE])]
    simp
  · intro r0 r1
    rw [generate_drift_report,
      get_recent_trends_of_le m _ [r0, r1] (by simp [Config.DRIFT_WINDOW_SIZE])]
    refine ⟨_, rfl, ?_, ?_, ?_⟩
    · show calculate_velocity [r0, r1] = r1.value - r0.value
      simp [calculate_velocity, olsSlope_pair]
    · show calculate_acceleration [r0, r1] = 0
      simp [calculate_acceleration]
    · show predict_future_drift expQ [r0, r1] 5 = []
      simp [predict_future_drift]
  · intro r0 r1 r2
    rw [generate_drift_report,
      get_recent_trends_of_le m _ [r0, r1, r2] (by simp [Config.DRIFT_WINDOW_SIZE])]
    have hv : calculate_velocity [r0, r1, r2] = (r2.value - r0.value) / 2 := by
      simp [calculate_velocity, olsSlope_triple]
    have ha : calculate_acceleration [r0, r1, r2] = r2.value - 2 * r1.value + r0.value := by
      simp only [calculate_acceleration, diffs]
      norm_num [mean]
      ring
    refine ⟨_, rfl, hv, ha, ?_, by simp, rfl, ?_⟩
    · show (predict_future_drift expQ [r0, r1, r2] 5).length = 5
      simp [predict_future_drift]
    · show calculate_risk_score (calculate_velocity [r0, r1, r2])
          (calculate_acceleration [r0, r1, r2]) r2.value (4/5) =
        calculate_risk_score (calculate_velocity [r0, r1, r2])
          (calculate_acceleration [r0, r1, r2]) r2.value (4/5)
      rfl

/-- Making the velocity more negative cannot shrink its clamped risk
contribution. -/
lemma negPart_antitone {v1 v2 : ℚ} (h : v1 ≤ v2) :
    (if v2 < 0 then |v2| else 0) ≤ (if v1 < 0 then |v1| else 0) := by
  split_ifs with h2 h1 h1
  · rw [abs_of_neg h2, abs_of_neg h1]
    exact neg_le_neg h
  · exact absurd (lt_of_le_of_lt h h2) h1
  · exact abs_nonneg v1
  · exact le_refl 0

/-- **C6** (confirmed): holding acceleration, current value and threshold
fixed, the risk score is non-decreasing as velocity becomes more negative;
it always lies in [0,1]; and it is exactly the clamped weighted combination
0.4·proximity + 0.35·min(|negative velocity|·10, 1) +
0.25·min(|negative acceleration|·20, 1). -/
theorem risk_score_monotone (a c t v1 v2 : ℚ) (h : v1 ≤ v2) :
    (calculate_risk_score v2 a c t).risk_score ≤
      (calculate_risk_score v1 a c t).risk_score ∧
    (∀ v, 0 ≤ (calculate_risk_score v a c t).risk_score ∧
      (calculate_risk_score v a c t).risk_score ≤ 1) ∧
    (∀ v, (calculate_risk_score v a c t).risk_score =
      max 0 (min (2/5 * (1 - max 0 (c - t) / (1/5)) +
        7/20 * min ((if v < 0 then |v| else 0) * 10) 1 +
        1/4 * min ((if a < 0 then |a| else 0) * 20) 1) 1)) := by
  refine ⟨?_, fun v => ⟨le_max_left 0 _, max_le (by norm_num) (min_le_right _ 1)⟩,
    fun v => rfl⟩
  simp only [calculate_risk_score]
  refine max_le_max (le_refl 0) (min_le_min ?_ (le_refl 1))
  refine add_le_add (add_le_add (le_refl _) ?_) (le_refl _)
  refine mul_le_mul_of_nonneg_left (min_le_min ?_ (le_refl 1)) (by norm_num)
  exact mul_le_mul_of_nonneg_right (negPart_antitone h) (by norm_num)

/-- **C6 witness**: velocities -1 ≤ 0 at fixed acceleration 0, current value
0, threshold 4/5. -/
theorem risk_score_monotone_witness :
    ((-1 : ℚ) ≤ 0) ∧
      ((calculate_risk_score 0 0 0 (4/5)).risk_score ≤
        (calculate_risk_score (-1) 0 0 (4/5)).risk_score ∧
      (∀ v, 0 ≤ (calculate_risk_score v 0 0 (4/5)).risk_score ∧
        (calculate_risk_score v 0 0 (4/5)).risk_score ≤ 1) ∧
      (∀ v, (calculate_risk_score v 0 0 (4/5)).risk_score =
        max 0 (min (2/5 * (1 - max 0 ((0 : ℚ) - 4/5) / (1/5)) +
          7/20 * min ((if v < 0 then |v| else 0) * 10) 1 +
          1/4 * min ((if (0 : ℚ) < 0 then |(0 : ℚ)| else 0) * 20) 1) 1))) :=
  ⟨by norm_num, risk_score_monotone 0 0 (4/5) (-1) 0 (by norm_num)⟩

/-! ## Theorems for the metrics engine -/

/-- `swap01` sends exactly the 0-encoded entries to 1. -/
lemma swap01_eq_one (x : ℚ) : swap01 x = 1 ↔ x = 0 := by
  unfold swap01
  split_ifs with h0 h1 <;> simp_all

/-- `swap01` sends exactly the 1-encoded entries to 0. -/
lemma swap01_eq_zero (x : ℚ) : swap01 x = 0 ↔ x = 1 := by
  unfold swap01
  split_ifs with h0 h1 <;> simp_all

/-- Unfolding: selecting from a cons keeps the head iff its group tag
matches. -/
lemma selectGroup_cons (y p : ℚ) (ys ps : List ℚ) (g : ℚ) :
    selectGroup (y :: ys) (p :: ps) g =
      if p = g then y :: selectGroup ys ps g else selectGroup ys ps g := by
  simp only [selectGroup, List.zip_cons_cons, List.filter_cons]
  by_cases hp : p = g <;> simp [hp]

/-- Selecting group `g` after relabelling with `f` is selecting the preimage
group `g'`. -/
lemma selectGroup_map (f : ℚ → ℚ) (g g' : ℚ) (hf : ∀ x, f x = g ↔ x = g') :
    ∀ (ys pa : List ℚ), selectGroup ys (pa.map f) g = selectGroup ys pa g' := by
  intro ys
  induction ys with
  | nil => intro pa; rfl
  | cons y ys ih =>
    intro pa
    cases pa with
    | nil => rfl
    | cons p ps =>
      rw [List.map_cons, selectGroup_cons, selectGroup_cons, ih ps]
      by_cases hp : p = g'
      · rw [if_pos ((hf p).mpr hp), if_pos hp]
      · rw [if_neg (fun hc => hp ((hf p).mp hc)), if_neg hp]

/-- **C5** (confirmed): the DIR metric's value is
mean(y_pred | protected=1) / mean(y_pred | protected=0) when the
privileged-group mean is positive and the 0 sentinel otherwise, and
`is_fair` holds exactly when the value reaches the configured 0.8
threshold (boundary inclusive). -/
theorem dir_value_spec (y_true y_pred pa : List ℚ)
    (h : pa.length = y_pred.length) :
    ∃ res : MetricResult,
      dirCalculate y_true y_pred pa = Except.ok res ∧
      res.value = some (if 0 < mean (selectGroup y_pred pa 0) then
        mean (selectGroup y_pred pa 1) / mean (selectGroup y_pred pa 0) else 0) ∧
      (res.is_fair = true ↔ (4/5 : ℚ) ≤ res.value.getD 0) ∧
      res.status = (if res.is_fair then "PASS" else "FAIL") := by
  have g1 : ¬(pa.length ≠ y_pred.length) := by omega
  simp only [dirCalculate, if_neg g1, rate_if_eq_mean, Config.DIR_THRESHOLD]
  refine ⟨_, rfl, rfl, ?_, rfl⟩
  simp [ge_iff_le]

/-- **C5 witness**: end-to-end scenario A — protected rate 2/3, privileged
rate 1/3, DIR = 2, fair. -/
theorem dir_value_spec_witness :
    ([1, 1, 1, 0, 0, 0] : List ℚ).length = ([1, 1, 0, 1, 0, 0] : List ℚ).length ∧
      (∃ res : MetricResult,
        dirCalculate [1, 1, 0, 1, 0, 0] [1, 1, 0, 1, 0, 0] [1, 1, 1, 0, 0, 0] =
          Except.ok res ∧
        res.value = some (if 0 < mean (selectGroup [1, 1, 0, 1, 0, 0] [1, 1, 1, 0, 0, 0] 0) then
          mean (selectGroup [1, 1, 0, 1, 0, 0] [1, 1, 1, 0, 0, 0] 1) /
            mean (selectGroup [1, 1, 0, 1, 0, 0] [1, 1, 1, 0, 0, 0] 0) else 0) ∧
        (res.is_fair = true ↔ (4/5 : ℚ) ≤ res.value.getD 0) ∧
        res.status = (if res.is_fair then "PASS" else "FAIL")) :=
  ⟨by decide, dir_value_spec [1, 1, 0, 1, 0, 0] [1, 1, 0, 1, 0, 0] [1, 1, 1, 0, 0, 0] (by decide)⟩

/-- **C9** (confirmed): relabelling which group is protected (swapping the
0/1 encoding) exactly negates the SPD value, so |SPD| and `is_fair`
(|SPD| ≤ 0.1) are invariant under the swap. -/
theorem spd_swap_negation (y_true y_pred pa : List ℚ)
    (h : pa.length = y_pred.length) :
    ∃ r1 r2 : MetricResult,
      spdCalculate y_true y_pred pa = Except.ok r1 ∧
      spdCalculate y_true y_pred (pa.map swap01) = Except.ok r2 ∧
      r2.value.getD 0 = -(r1.value.getD 0) ∧
      r2.is_fair = r1.is_fair := by
  have g1 : ¬(pa.length ≠ y_pred.length) := by omega
  have g2 : ¬((pa.map swap01).length ≠ y_pred.length) := by
    simp only [List.length_map]; omega
  have h10 : selectGroup y_pred (pa.map swap01) 1 = selectGroup y_pred pa 0 :=
    selectGroup_map swap01 1 0 swap01_eq_one y_pred pa
  have h01 : selectGroup y_pred (pa.map swap01) 0 = selectGroup y_pred pa 1 :=
    selectGroup_map swap01 0 1 swap01_eq_zero y_pred pa
  simp only [spdCalculate, if_neg g1, if_neg g2, rate_if_eq_mean, h10, h01]
  refine ⟨_, _, rfl, rfl, ?_, ?_⟩
  · simp [neg_sub]
  · simp only [abs_sub_comm (mean (selectGroup y_pred pa 0)) (mean (selectGroup y_pred pa 1))]

/-- **C9 witness**: scenario A's attribute vector, swapped. -/
theorem spd_swap_negation_witness :
    ([1, 1, 1, 0, 0, 0] : List ℚ).length = ([1, 1, 0, 1, 0, 0] : List ℚ).length ∧
      (∃ r1 r2 : MetricResult,
        spdCalculate [1, 1, 0, 1, 0, 0] [1, 1, 0, 1, 0, 0] [1, 1, 1, 0, 0, 0] =
          Except.ok r1 ∧
        spdCalculate [1, 1, 0, 1, 0, 0] [1, 1, 0, 1, 0, 0]
            (([1, 1, 1, 0, 0, 0] : List ℚ).map swap01) = Except.ok r2 ∧
        r2.value.getD 0 = -(r1.value.getD 0) ∧
        r2.is_fair = r1.is_fair) :=
  ⟨by decide, spd_swap_negation [1, 1, 0, 1, 0, 0] [1, 1, 0, 1, 0, 0] [1, 1, 1, 0, 0, 0] (by decide)⟩

/-- **C4** (corrected): on every equal-length, nonempty input — including one
with an empty protected- or privileged-group mask — no metric computation
raises: `calculate_all_metrics` returns five entries, every one carrying a
numeric value and a PASS/FAIL status (the per-metric try/except that would
isolate a failure to an ERROR slot is unreachable on such inputs; empty
masks are resolved to sentinel rate 0 inside each metric instead). -/
theorem calculate_all_metrics_total (logQ : ℚ → ℚ) (y_true y_pred pa : List ℚ)
    (h1 : y_true.length = pa.length) (h2 : y_pred.length = pa.length)
    (h3 : 1 ≤ pa.length) :
    (calculate_all_metrics logQ y_true y_pred pa).all_metrics.length = 5 ∧
    ∀ p ∈ (calculate_all_metrics logQ y_true y_pred pa).all_metrics,
      p.2.error = none ∧ p.2.value.isSome = true ∧
      (p.2.status = "PASS" ∨ p.2.status = "FAIL") := by
  have g1 : ¬(pa.length ≠ y_pred.length) := by omega
  have g2 : ¬(pa.length ≠ y_pred.length ∨ pa.length ≠ y_true.length) := by omega
  simp only [calculate_all_metrics, dirCalculate, spdCalculate, eodCalculate,
    aodCalculate, theilCalculate, if_neg g1, if_neg g2, guardMetric]
  refine ⟨rfl, ?_⟩
  intro p hp
  simp only [List.mem_cons, List.not_mem_nil, or_false] at hp
  rcases hp with rfl | rfl | rfl | rfl | rfl <;>
    exact ⟨rfl, rfl, ite_eq_or_eq _ _ _⟩

/-- **C4 witness**: the input the claim cites — an empty privileged-group
mask (protected = [0,0,0] leaves the protected group empty; all masks are
still handled without an exception). -/
theorem calculate_all_metrics_total_witness :
    ([1, 0, 1] : List ℚ).length = ([0, 0, 0] : List ℚ).length ∧
      ((calculate_all_metrics (fun _ => 0) [1, 0, 1] [1, 0, 1] [0, 0, 0]).all_metrics.length = 5 ∧
      ∀ p ∈ (calculate_all_metrics (fun _ => 0) [1, 0, 1] [1, 0, 1] [0, 0, 0]).all_metrics,
        p.2.error = none ∧ p.2.value.isSome = true ∧
        (p.2.status = "PASS" ∨ p.2.status = "FAIL")) :=
  ⟨by decide,
    calculate_all_metrics_total (fun _ => 0) [1, 0, 1] [1, 0, 1] [0, 0, 0]
      (by decide) (by decide) (by decide)⟩

/-- **C4 counterexample**: on the input the claim points at (empty
protected-group mask, other inputs well-formed) no metric ends in an ERROR
slot with a null value: all five slots carry numeric values and PASS/FAIL
statuses. -/
theorem calculate_all_metrics_no_error_cex :
    ((calculate_all_metrics (fun _ => 0) [1, 0, 1] [1, 0, 1] [0, 0, 0]).all_metrics.map
      (fun p => (p.1, p.2.status))) =
      [("DIR", "FAIL"), ("SPD", "FAIL"), ("EOD", "FAIL"), ("AOD", "FAIL"),
        ("THEIL", "PASS")] ∧
    (calculate_all_metrics (fun _ => 0) [1, 0, 1] [1, 0, 1] [0, 0, 0]).all_metrics.all
      (fun p => p.2.value.isSome) = true := by
  constructor <;>
    norm_num [calculate_all_metrics, dirCalculate, spdCalculate, eodCalculate,
      aodCalculate, theilCalculate, guardMetric, selectGroup, groupPairs, tprOf,
      fprOf, mean, Config.DIR_THRESHOLD, Config.SPD_THRESHOLD, Config.EOD_THRESHOLD,
      Config.AOD_THRESHOLD, Config.THEIL_THRESHOLD] <;>
    norm_num [abs_le]

end Fair
